import Mathlib

/-!
# MStar touchscreen driver (`drivers/input/touchscreen/mstar.c`, `mstar.h`)

A shallow embedding of the driver's frame handling (`tpd_checksum`,
`tpd_irq_handler`, `tpd_finger`) and of its power sequencing (`tpd_start`,
`tpd_stop`, `tpd_input_open`, `tpd_input_close`, `tpd_suspend`, `tpd_resume`).

Machine integers are `Nat`/`Int` with explicit reduction: a `u8` is a `Nat`
below 256, the `s32` accumulator of `tpd_checksum` is held as its 32-bit
two's-complement pattern, a `Nat` below `2^32` (the kernel is built with
wrapping signed arithmetic).
-/

namespace MStar

/-! ## Data model (`mstar.h`) -/

/-- The per-model constants, `struct tpd_compat`. -/
structure tpd_compat where
  max_fingers : Nat
  data_raw : Nat
  chip_on : Nat
  firmware_on : Nat
  reset_min : Nat
  reset_max : Nat
  deriving DecidableEq, Repr

/-- The constants of the MSG2238, `msg2238_compat`. -/
def msg2238_compat : tpd_compat :=
  { max_fingers := 2, data_raw := 0x62, chip_on := 10, firmware_on := 20,
    reset_min := 10000, reset_max := 11000 }

/-- The constants of the MSG2638, `msg2638_compat`. -/
def msg2638_compat : tpd_compat :=
  { max_fingers := 5, data_raw := 0x5A, chip_on := 15, firmware_on := 50,
    reset_min := 10000, reset_max := 11000 }

/-- The `.data` entries of the device table `tpd_of_match`, in table order. -/
def tpd_of_match : List tpd_compat := [msg2238_compat, msg2638_compat]

/-- A decoded coordinate pair, `struct point`. -/
structure point where
  x : Nat
  y : Nat
  deriving DecidableEq, Repr

/-- One finger record, `struct packet`: four `u8` fields. -/
structure packet where
  xy_hi : Nat
  x_low : Nat
  y_low : Nat
  pressure : Nat
  deriving DecidableEq, Repr

/-- The value of `sizeof(struct packet)`: four `u8` members, no padding. -/
def sizeof_packet : Nat := 4

/-! ## `tpd_checksum` -/

/-- The addition `sum += b` on an `s32` held as its 32-bit two's-complement
pattern: the result is reduced modulo `2^32`. -/
def s32_add (sum b : Nat) : Nat := (sum + b) % 4294967296

/-- The negation `-sum` on an `s32` held as its 32-bit two's-complement pattern. -/
def s32_neg (sum : Nat) : Nat := (4294967296 - sum % 4294967296) % 4294967296

/-- The value of `sum` after the loop `for (i = 0; i < length; i++) sum += data[i];`
of `tpd_checksum`, started from `sum = 0`. `data[i]` is the `i`-th byte of `data`. -/
def tpd_checksum_sum (data : List Nat) (length : Nat) : Nat :=
  (List.range length).foldl (fun sum i => s32_add sum (data.getD i 0)) 0

/-- The function `tpd_checksum`: `return (u8)((-sum) & 0xFF);`. -/
def tpd_checksum (data : List Nat) (length : Nat) : Nat :=
  (s32_neg (tpd_checksum_sum data length) &&& 0xFF) % 256

/-! ## The per-slot step of `tpd_irq_handler` and `tpd_finger` -/

/-- The axis codes passed to `input_report_abs` by the driver. -/
inductive AbsCode
  | ABS_MT_POSITION_X
  | ABS_MT_POSITION_Y
  | ABS_MT_TOUCH_MAJOR
  deriving DecidableEq, Repr

/-- The messages the driver logs through `dev_err` in the modelled functions. -/
inductive LogMsg
  | failed_i2c_transfer
  | failed_checksum
  | failed_enable_regulators (ret : Int)
  | failed_disable_regulators (ret : Int)
  deriving DecidableEq, Repr

/-- A call the driver makes to one of its collaborators. -/
inductive Call
  | kmalloc (size : Nat)
  | i2c_transfer (len : Nat)
  | kfree
  | dev_err (msg : LogMsg)
  | input_mt_slot (slot : Nat)
  | input_mt_report_slot_state (active : Bool)
  | input_report_abs (code : AbsCode) (value : Nat)
  | input_mt_sync_frame
  | input_sync
  | regulator_bulk_enable
  | regulator_bulk_disable
  | msleep (ms : Nat)
  | usleep_range (min max : Nat)
  | gpiod_set_value_cansleep (value : Nat)
  | enable_irq
  | disable_irq
  | mutex_lock
  | mutex_unlock
  deriving DecidableEq, Repr

/-- Whether a call goes to the touch-event sink (the input device). -/
def Call.isSink : Call → Bool
  | .input_mt_slot _ => true
  | .input_mt_report_slot_state _ => true
  | .input_report_abs _ _ => true
  | .input_mt_sync_frame => true
  | .input_sync => true
  | _ => false

/-- The function `tpd_finger`: the five calls made for one active slot. -/
def tpd_finger (slot : Nat) (p : point) : List Call :=
  [ .input_mt_slot slot,
    .input_mt_report_slot_state true,
    .input_report_abs .ABS_MT_POSITION_X p.x,
    .input_report_abs .ABS_MT_POSITION_Y p.y,
    .input_report_abs .ABS_MT_TOUCH_MAJOR 1 ]

/-- The test `p->xy_hi == 0xFF && p->x_low == 0xFF && p->y_low == 0xFF` of the
handler's loop. -/
def is_non_pressed (p : packet) : Bool :=
  p.xy_hi == 0xFF && p.x_low == 0xFF && p.y_low == 0xFF

/-- The two assignments to `coord` in the handler's loop. -/
def decode_coord (p : packet) : point :=
  { x := ((p.xy_hi &&& 0xF0) <<< 4) ||| p.x_low,
    y := ((p.xy_hi &&& 0x0F) <<< 8) ||| p.y_low }

/-- The coordinates the loop body hands to `tpd_finger` for one record, or
`none` when the body takes its `continue`. -/
def decode_slot (p : packet) : Option point :=
  if is_non_pressed p then none else some (decode_coord p)

/-- The body of the handler's loop for slot `i` with record `p`. -/
def irq_slot_step (i : Nat) (p : packet) : List Call :=
  match decode_slot p with
  | none => []
  | some coord => tpd_finger i coord

/-! ## `tpd_irq_handler`

`struct touch_event` is `{ u8 mode; struct packet *pkt; u8 proximity; u8 checksum; }`:
its second member is a pointer, so its size and the offsets of `proximity` and
`checksum` depend on the width of a pointer and not on `max_fingers`. -/

/-- The data models the kernel is built for: 32-bit and 64-bit pointers, with
natural alignment of members and little-endian byte order. -/
inductive Abi
  | ilp32
  | lp64
  deriving DecidableEq, Repr

/-- The value of `sizeof(struct packet *)`. -/
def sizeof_pointer : Abi → Nat
  | .ilp32 => 4
  | .lp64 => 8

/-- The value of `offsetof(struct touch_event, pkt)`: `mode` is one byte and the
pointer is aligned to its size. -/
def offsetof_pkt (abi : Abi) : Nat := sizeof_pointer abi

/-- The value of `offsetof(struct touch_event, proximity)`. -/
def offsetof_proximity (abi : Abi) : Nat := 2 * sizeof_pointer abi

/-- The value of `offsetof(struct touch_event, checksum)`. -/
def offsetof_checksum (abi : Abi) : Nat := 2 * sizeof_pointer abi + 1

/-- The value of `sizeof(struct touch_event)`: the two trailing bytes are padded
to the alignment of the pointer member. -/
def sizeof_touch_event (abi : Abi) : Nat := 3 * sizeof_pointer abi

/-- The member `tev.mode` read from the bytes `rx` that the transfer stored at
`&tev`. -/
def tev_mode (rx : List Nat) : Nat := rx.getD 0 0

/-- The member `tev.checksum` read from the bytes stored at `&tev`. -/
def tev_checksum (abi : Abi) (rx : List Nat) : Nat := rx.getD (offsetof_checksum abi) 0

/-- The little-endian value of the bytes `rx[off], ..., rx[off + n - 1]`. -/
def le_value (rx : List Nat) (off : Nat) : Nat → Nat
  | 0 => 0
  | n + 1 => rx.getD off 0 + 256 * le_value rx (off + 1) n

/-- The member `tev.pkt` read from the bytes stored at `&tev`: the transfer
writes `sizeof(struct touch_event)` bytes over the whole object, the pointer
returned by `kmalloc` included. -/
def tev_pkt (abi : Abi) (rx : List Nat) : Nat :=
  le_value rx (offsetof_pkt abi) (sizeof_pointer abi)

/-- An address of the data model: address arithmetic is reduced modulo
`2 ^ (8 * sizeof(pointer))`. -/
def address (abi : Abi) (a : Nat) : Nat := a % 2 ^ (8 * sizeof_pointer abi)

/-- A `u8` load. The memory `mem` gives the byte mapped at an address, or `none`
where nothing is mapped; a load from an unmapped address faults. -/
def load_u8 (abi : Abi) (mem : Nat → Option Nat) (a : Nat) : Option Nat :=
  (mem (address abi a)).map (fun b => b % 256)

/-- The record `tev.pkt[i]` as one pass of the loop body reads it through the
pointer `tev.pkt`: the members `xy_hi`, `x_low` and `y_low` are all loaded
before `tpd_finger` is called (in the test or in the two assignments to
`coord`), and the result is `none` when one of these loads faults. The member
`pressure` is never read by the handler; it is carried as the mapped byte, or 0. -/
def tev_pkt_at (abi : Abi) (rx : List Nat) (mem : Nat → Option Nat) (i : Nat) :
    Option packet :=
  match load_u8 abi mem (tev_pkt abi rx + sizeof_packet * i),
      load_u8 abi mem (tev_pkt abi rx + sizeof_packet * i + 1),
      load_u8 abi mem (tev_pkt abi rx + sizeof_packet * i + 2) with
  | some b0, some b1, some b2 =>
    some { xy_hi := b0, x_low := b1, y_low := b2,
           pressure := (load_u8 abi mem (tev_pkt abi rx + sizeof_packet * i + 3)).getD 0 }
  | _, _, _ => none

/-- A run of the handler: the calls it made, and whether it ended in a fault (a
load from an unmapped address) instead of returning. -/
structure Run where
  calls : List Call
  faulted : Bool
  deriving DecidableEq, Repr

/-- The passes of the loop of the handler for the slots `slots`, in order, over
the records `pkt i`: a pass whose record cannot be loaded ends the run in a
fault, the other passes make the calls of `irq_slot_step`. -/
def irq_loop_from (pkt : Nat → Option packet) : List Nat → Run
  | [] => { calls := [], faulted := false }
  | i :: slots =>
    match pkt i with
    | none => { calls := [], faulted := true }
    | some p =>
      { calls := irq_slot_step i p ++ (irq_loop_from pkt slots).calls,
        faulted := (irq_loop_from pkt slots).faulted }

/-- The loop `for(i = 0; i < data->data->max_fingers; i++)` of the handler over
the records `pkt i`. -/
def irq_loop (max_fingers : Nat) (pkt : Nat → Option packet) : Run :=
  irq_loop_from pkt (List.range max_fingers)

/-- The function `tpd_irq_handler`, as the run it makes. Its inputs are the
layout of `struct touch_event`, the profile `data->data`, the value `ret` of
`i2c_transfer`, the bytes `rx` found at `&tev` after the transfer, and the memory
`mem` read through `tev.pkt`. A fault in the loop ends the run there: no
synchronisation call and no `kfree` follow. -/
def tpd_irq_handler (abi : Abi) (data : tpd_compat) (ret : Int) (rx : List Nat)
    (mem : Nat → Option Nat) : Run :=
  let len := sizeof_touch_event abi
  let head : List Call := [.kmalloc (sizeof_packet * data.max_fingers), .i2c_transfer len]
  if ret ≠ 1 then
    { calls := head ++ [.dev_err .failed_i2c_transfer, .kfree], faulted := false }
  else if tev_mode rx ≠ data.data_raw then
    { calls := head ++ [.kfree], faulted := false }
  else if tpd_checksum rx (len - 1) ≠ tev_checksum abi rx then
    { calls := head ++ [.dev_err .failed_checksum, .kfree], faulted := false }
  else if (irq_loop data.max_fingers (tev_pkt_at abi rx mem)).faulted then
    { calls := head ++ (irq_loop data.max_fingers (tev_pkt_at abi rx mem)).calls,
      faulted := true }
  else
    { calls := head ++ (irq_loop data.max_fingers (tev_pkt_at abi rx mem)).calls
        ++ [.input_mt_sync_frame, .input_sync, .kfree],
      faulted := false }

/-- The calls of a run that go to the touch-event sink. -/
def sink_calls (trace : List Call) : List Call := trace.filter Call.isSink

/-! ## Power sequencing: `tpd_start`, `tpd_stop` and their callers

The functions are written once over the collaborators they call (`Handles`), so
that they can be run against a recorder of calls and against a model of the
reference counts kept by the interrupt and regulator layers. -/

/-- The collaborators of the power sequencing over a world `σ`: each call takes
the world to the next one, the two regulator calls also return their `int`. -/
structure Handles (σ : Type) where
  regulator_bulk_enable : σ → Int × σ
  regulator_bulk_disable : σ → Int × σ
  msleep : Nat → σ → σ
  usleep_range : Nat → Nat → σ → σ
  gpiod_set_value_cansleep : Nat → σ → σ
  enable_irq : σ → σ
  disable_irq : σ → σ
  dev_err : LogMsg → σ → σ
  mutex_lock : σ → σ
  mutex_unlock : σ → σ

/-- The function `tpd_start`. -/
def tpd_start {σ : Type} (h : Handles σ) (data : tpd_compat) (s : σ) : Int × σ :=
  let r := h.regulator_bulk_enable s
  let ret := r.1
  if ret ≠ 0 then
    (ret, h.dev_err (.failed_enable_regulators ret) r.2)
  else
    let s1 := h.msleep data.chip_on r.2
    let s2 := h.gpiod_set_value_cansleep 1 s1
    let s3 := h.usleep_range data.reset_min data.reset_max s2
    let s4 := h.gpiod_set_value_cansleep 0 s3
    let s5 := h.msleep data.firmware_on s4
    let s6 := h.enable_irq s5
    (0, s6)

/-- The function `tpd_stop`. -/
def tpd_stop {σ : Type} (h : Handles σ) (s : σ) : Int × σ :=
  let s1 := h.disable_irq s
  let r := h.regulator_bulk_disable s1
  let ret := r.1
  if ret ≠ 0 then
    (ret, h.dev_err (.failed_disable_regulators ret) r.2)
  else
    (0, r.2)

/-- The function `tpd_input_open`. -/
def tpd_input_open {σ : Type} (h : Handles σ) (data : tpd_compat) (s : σ) : Int × σ :=
  tpd_start h data s

/-- The function `tpd_input_close`: it returns `void`, the value of `tpd_stop` is
dropped. -/
def tpd_input_close {σ : Type} (h : Handles σ) (s : σ) : Unit × σ :=
  ((), (tpd_stop h s).2)

/-- The function `tpd_suspend`: the test on `input_device_enabled` is commented
out in the source, `tpd_stop` runs on every call. -/
def tpd_suspend {σ : Type} (h : Handles σ) (s : σ) : Int × σ :=
  let s1 := h.mutex_lock s
  let s2 := (tpd_stop h s1).2
  let s3 := h.mutex_unlock s2
  (0, s3)

/-- The function `tpd_resume`: the test on `input_device_enabled` is commented
out in the source, `tpd_start` runs on every call. -/
def tpd_resume {σ : Type} (h : Handles σ) (data : tpd_compat) (s : σ) : Int × σ :=
  let s1 := h.mutex_lock s
  let r := tpd_start h data s1
  let s3 := h.mutex_unlock r.2
  (r.1, s3)

/-- Mock handles that record every call in order; `en_ret` and `dis_ret` are the
values the two regulator calls return. -/
def recorder (en_ret dis_ret : Int) : Handles (List Call) where
  regulator_bulk_enable := fun t => (en_ret, t ++ [.regulator_bulk_enable])
  regulator_bulk_disable := fun t => (dis_ret, t ++ [.regulator_bulk_disable])
  msleep := fun ms t => t ++ [.msleep ms]
  usleep_range := fun lo hi t => t ++ [.usleep_range lo hi]
  gpiod_set_value_cansleep := fun v t => t ++ [.gpiod_set_value_cansleep v]
  enable_irq := fun t => t ++ [.enable_irq]
  disable_irq := fun t => t ++ [.disable_irq]
  dev_err := fun m t => t ++ [.dev_err m]
  mutex_lock := fun t => t ++ [.mutex_lock]
  mutex_unlock := fun t => t ++ [.mutex_unlock]

/-- The resources the power sequencing toggles: the disable depth of the
interrupt line (0 means enabled), the enable count of the supplies, and the
level of the reset line. -/
structure DeviceState where
  irq_depth : Nat
  supply_count : Nat
  reset_line : Nat
  deriving DecidableEq, Repr

/-- The error `-EIO`. -/
def EIO_neg : Int := -5

/-- The reference counting of the kernel's interrupt and regulator layers:
`disable_irq` deepens the disable depth and `enable_irq` undoes one level (an
enable at depth 0 is refused with a warning); `regulator_bulk_enable` raises the
enable count, `regulator_bulk_disable` lowers it and refuses an unbalanced
disable at count 0 with `-EIO`. Delays, logging and the mutex leave the
resources alone. -/
def kernel : Handles DeviceState where
  regulator_bulk_enable := fun s => (0, { s with supply_count := s.supply_count + 1 })
  regulator_bulk_disable := fun s =>
    if s.supply_count = 0 then (EIO_neg, s)
    else (0, { s with supply_count := s.supply_count - 1 })
  msleep := fun _ s => s
  usleep_range := fun _ _ s => s
  gpiod_set_value_cansleep := fun v s => { s with reset_line := v }
  enable_irq := fun s => { s with irq_depth := s.irq_depth - 1 }
  disable_irq := fun s => { s with irq_depth := s.irq_depth + 1 }
  dev_err := fun _ s => s
  mutex_lock := fun s => s
  mutex_unlock := fun s => s

/-- The resources as `tpd_probe` leaves them: the interrupt is requested with
`IRQ_NOAUTOEN` (disabled once), the supplies are only looked up, the reset line
is requested `GPIOD_OUT_LOW`. -/
def probed : DeviceState := { irq_depth := 1, supply_count := 0, reset_line := 0 }

/-- The slots a run reports as touched: the arguments of its `input_mt_slot`
calls, in call order. -/
def reported_slots (trace : List Call) : List Nat :=
  trace.filterMap (fun c => match c with
    | .input_mt_slot i => some i
    | _ => none)

/-- The lengths of the bus reads of a run: the arguments of its `i2c_transfer`
calls, in call order. -/
def read_lengths (trace : List Call) : List Nat :=
  trace.filterMap (fun c => match c with
    | .i2c_transfer len => some len
    | _ => none)

/-! ## The frame of the specification's round trip -/

/-- The record that the round-trip property builds for an active slot at
`(x, y)` with pressure byte `p`: `(((x >> 8) << 4) | (y >> 8), x & 0xFF, y & 0xFF, p)`. -/
def spec_encode_record (x y p : Nat) : packet :=
  { xy_hi := ((x >>> 8) <<< 4) ||| (y >>> 8), x_low := x &&& 0xFF, y_low := y &&& 0xFF,
    pressure := p }

/-- The four bytes the round-trip property puts in the frame for one slot: the
encoded record of an active slot, or `(0xFF, 0xFF, 0xFF, p)` for an inactive one. -/
def spec_record_bytes (slot : Option point) (p : Nat) : List Nat :=
  match slot with
  | some c =>
    [ (spec_encode_record c.x c.y p).xy_hi, (spec_encode_record c.x c.y p).x_low,
      (spec_encode_record c.x c.y p).y_low, (spec_encode_record c.x c.y p).pressure ]
  | none => [0xFF, 0xFF, 0xFF, p]

/-- The frame of the round-trip property, in the layout the specification gives
a frame: the mode byte `data_raw`, `max_fingers` records of four bytes, the
proximity byte, and the checksum of all bytes before it. -/
def spec_encode_frame (data : tpd_compat) (slots : Nat → Option point)
    (pressure : Nat → Nat) (proximity : Nat) : List Nat :=
  let body := data.data_raw ::
    ((List.range data.max_fingers).flatMap
      (fun i => spec_record_bytes (slots i) (pressure i)) ++ [proximity])
  body ++ [tpd_checksum body body.length]

/-! ## The checksum -/

/-- Taking one more element appends the element read by `getD`. -/
theorem take_succ_getD (data : List Nat) (n : Nat) (hn : n < data.length) :
    data.take (n + 1) = data.take n ++ [data.getD n 0] := by
  rw [List.take_succ, List.getD_eq_getElem?_getD, List.getElem?_eq_getElem hn]
  rfl

/-- The accumulator of `tpd_checksum` after `length` in-bounds steps is the sum
of the bytes read, reduced modulo `2^32`. -/
theorem tpd_checksum_sum_eq (data : List Nat) (length : Nat) (h : length ≤ data.length) :
    tpd_checksum_sum data length = (data.take length).sum % 4294967296 := by
  unfold tpd_checksum_sum
  induction length with
  | zero => rfl
  | succ n ih =>
    have hn : n < data.length := h
    rw [List.range_succ, List.foldl_append, ih (Nat.le_of_lt hn)]
    simp only [List.foldl_cons, List.foldl_nil]
    rw [take_succ_getD data n hn, List.sum_append]
    simp only [List.sum_cons, List.sum_nil, Nat.add_zero]
    unfold s32_add
    omega

/-- The value of `tpd_checksum` over an in-bounds prefix, as a residue. -/
theorem tpd_checksum_eq (data : List Nat) (length : Nat) (h : length ≤ data.length) :
    tpd_checksum data length = (256 - (data.take length).sum % 256) % 256 := by
  unfold tpd_checksum
  have h255 : (0xFF : Nat) = 2 ^ 8 - 1 := by norm_num
  rw [tpd_checksum_sum_eq data length h, h255, Nat.and_pow_two_sub_one_eq_mod]
  unfold s32_neg
  omega

/-- C1. For every sequence `b` (in particular every byte sequence whose length
`L` fits a `u32`), `tpd_checksum(b, L)` is a byte `c` with
`(sum(b) + c) & 0xFF == 0`, that is `c = (-sum(b)) mod 256`, where `sum(b)` is
the mathematical sum of the `L` bytes; the `s32` accumulator holds that sum
reduced modulo `2^32`, so the property holds when it wraps. -/
theorem tpd_checksum_cancels_sum (b : List Nat) :
    tpd_checksum b b.length < 256 ∧
      (b.sum + tpd_checksum b b.length) &&& 0xFF = 0 ∧
      (b.sum + tpd_checksum b b.length) % 256 = 0 ∧
      (tpd_checksum b b.length : Int) = (-(b.sum : Int)) % 256 ∧
      tpd_checksum_sum b b.length = b.sum % 4294967296 := by
  have hc := tpd_checksum_eq b b.length (Nat.le_refl _)
  have hs := tpd_checksum_sum_eq b b.length (Nat.le_refl _)
  rw [List.take_length] at hc hs
  have hmod : (b.sum + tpd_checksum b b.length) % 256 = 0 := by omega
  refine ⟨by omega, ?_, hmod, by omega, hs⟩
  have h255 : (0xFF : Nat) = 2 ^ 8 - 1 := by norm_num
  rw [h255, Nat.and_pow_two_sub_one_eq_mod]
  simpa using hmod

/-! ## Coordinate packing -/

set_option maxRecDepth 100000 in
/-- Masking a byte with `0xF0` clears its low nibble. -/
theorem and_F0_eq : ∀ b, b < 256 → b &&& 0xF0 = b / 16 * 16 := by
  decide

/-- Masking with `0x0F` keeps the low nibble. -/
theorem and_0F_eq (b : Nat) : b &&& 0x0F = b % 16 := by
  have h15 : (0x0F : Nat) = 2 ^ 4 - 1 := by norm_num
  rw [h15, Nat.and_pow_two_sub_one_eq_mod]

/-- Masking with `0xFF` keeps the low byte. -/
theorem and_FF_eq (b : Nat) : b &&& 0xFF = b % 256 := by
  have h255 : (0xFF : Nat) = 2 ^ 8 - 1 := by norm_num
  rw [h255, Nat.and_pow_two_sub_one_eq_mod]

/-- A shifted high part combined by `|` with a low part that fits below it is
their sum. -/
theorem shl_or_eq (hi lo k : Nat) (h : lo < 2 ^ k) : (hi <<< k) ||| lo = hi * 2 ^ k + lo := by
  rw [Nat.shiftLeft_eq, Nat.mul_comm hi (2 ^ k), Nat.mul_add_lt_is_or h]

/-- The coordinates of a record in arithmetic form. -/
theorem decode_coord_eq (p : packet) (h0 : p.xy_hi < 256) (h1 : p.x_low < 256)
    (h2 : p.y_low < 256) :
    decode_coord p = { x := p.xy_hi / 16 * 256 + p.x_low, y := p.xy_hi % 16 * 256 + p.y_low } := by
  unfold decode_coord
  have hx : ((p.xy_hi &&& 0xF0) <<< 4) ||| p.x_low = p.xy_hi / 16 * 256 + p.x_low := by
    rw [and_F0_eq _ h0, Nat.shiftLeft_eq, Nat.mul_assoc]
    have := shl_or_eq (p.xy_hi / 16) p.x_low 8 (by norm_num; exact h1)
    rw [Nat.shiftLeft_eq] at this
    norm_num at this ⊢
    exact this
  have hy : ((p.xy_hi &&& 0x0F) <<< 8) ||| p.y_low = p.xy_hi % 16 * 256 + p.y_low := by
    rw [and_0F_eq]
    have := shl_or_eq (p.xy_hi % 16) p.y_low 8 (by norm_num; exact h2)
    norm_num at this ⊢
    exact this
  rw [hx, hy]

/-- The sentinel test of a record in propositional form. -/
theorem is_non_pressed_iff (p : packet) :
    is_non_pressed p = true ↔ p.xy_hi = 0xFF ∧ p.x_low = 0xFF ∧ p.y_low = 0xFF := by
  simp [is_non_pressed, and_assoc]

/-- C4. Coordinate packing: for every finger record `(byte0, byte1, byte2, pressure)`
of bytes that is not the inactive sentinel, the per-slot step of the handler
reports `x = ((byte0 & 0xF0) << 4) | byte1` and `y = ((byte0 & 0x0F) << 8) | byte2`
through `tpd_finger`; `x` is the high nibble of `byte0` times 256 plus `byte1`,
`y` is the low nibble times 256 plus `byte2`, and both are at most 4095. The
record `0xAB, 0xCD, 0xEF` decodes to `x = 2765`, `y = 3055`. -/
theorem coordinate_packing (i b0 b1 b2 pr : Nat) (h0 : b0 < 256) (h1 : b1 < 256)
    (h2 : b2 < 256) (hs : ¬ (b0 = 0xFF ∧ b1 = 0xFF ∧ b2 = 0xFF)) :
    decode_slot ⟨b0, b1, b2, pr⟩
        = some ⟨((b0 &&& 0xF0) <<< 4) ||| b1, ((b0 &&& 0x0F) <<< 8) ||| b2⟩ ∧
      irq_slot_step i ⟨b0, b1, b2, pr⟩
        = [ .input_mt_slot i, .input_mt_report_slot_state true,
            .input_report_abs .ABS_MT_POSITION_X (((b0 &&& 0xF0) <<< 4) ||| b1),
            .input_report_abs .ABS_MT_POSITION_Y (((b0 &&& 0x0F) <<< 8) ||| b2),
            .input_report_abs .ABS_MT_TOUCH_MAJOR 1 ] ∧
      ((b0 &&& 0xF0) <<< 4) ||| b1 = (b0 / 16) * 256 + b1 ∧
      ((b0 &&& 0x0F) <<< 8) ||| b2 = (b0 % 16) * 256 + b2 ∧
      ((b0 &&& 0xF0) <<< 4) ||| b1 ≤ 4095 ∧
      ((b0 &&& 0x0F) <<< 8) ||| b2 ≤ 4095 ∧
      decode_slot ⟨0xAB, 0xCD, 0xEF, pr⟩ = some ⟨2765, 3055⟩ := by
  have hnp : is_non_pressed ⟨b0, b1, b2, pr⟩ = false := by
    rw [Bool.eq_false_iff, Ne, is_non_pressed_iff]
    exact hs
  have hd : decode_slot ⟨b0, b1, b2, pr⟩
      = some ⟨((b0 &&& 0xF0) <<< 4) ||| b1, ((b0 &&& 0x0F) <<< 8) ||| b2⟩ := by
    simp [decode_slot, hnp, decode_coord]
  have hc := decode_coord_eq ⟨b0, b1, b2, pr⟩ h0 h1 h2
  simp only [decode_coord, point.mk.injEq] at hc
  obtain ⟨hx, hy⟩ := hc
  refine ⟨hd, ?_, hx, hy, ?_, ?_, ?_⟩
  · simp [irq_slot_step, hd, tpd_finger]
  · rw [hx]; omega
  · rw [hy]; omega
  · simp only [decode_slot, is_non_pressed, decode_coord]
    decide

/-- C4 at a concrete input: the record `0xAB, 0xCD, 0xEF` in slot 1. -/
theorem coordinate_packing_witness :
    decode_slot ⟨0xAB, 0xCD, 0xEF, 0x10⟩
        = some ⟨((0xAB &&& 0xF0) <<< 4) ||| 0xCD, ((0xAB &&& 0x0F) <<< 8) ||| 0xEF⟩ ∧
      irq_slot_step 1 ⟨0xAB, 0xCD, 0xEF, 0x10⟩
        = [ .input_mt_slot 1, .input_mt_report_slot_state true,
            .input_report_abs .ABS_MT_POSITION_X (((0xAB &&& 0xF0) <<< 4) ||| 0xCD),
            .input_report_abs .ABS_MT_POSITION_Y (((0xAB &&& 0x0F) <<< 8) ||| 0xEF),
            .input_report_abs .ABS_MT_TOUCH_MAJOR 1 ] ∧
      ((0xAB &&& 0xF0) <<< 4) ||| 0xCD = (0xAB / 16) * 256 + 0xCD ∧
      ((0xAB &&& 0x0F) <<< 8) ||| 0xEF = (0xAB % 16) * 256 + 0xEF ∧
      ((0xAB &&& 0xF0) <<< 4) ||| 0xCD ≤ 4095 ∧
      ((0xAB &&& 0x0F) <<< 8) ||| 0xEF ≤ 4095 ∧
      decode_slot ⟨0xAB, 0xCD, 0xEF, 0x10⟩ = some ⟨2765, 3055⟩ :=
  coordinate_packing 1 0xAB 0xCD 0xEF 0x10 (by decide) (by decide) (by decide) (by decide)

/-! ## The sentinel and the encoding of a point -/

/-- The record built for an in-range point, in arithmetic form. -/
theorem spec_encode_record_eq (x y p : Nat) (hy : y ≤ 4095) :
    spec_encode_record x y p
      = { xy_hi := x / 256 * 16 + y / 256, x_low := x % 256, y_low := y % 256,
          pressure := p } := by
  unfold spec_encode_record
  have h := shl_or_eq (x >>> 8) (y >>> 8) 4 (by rw [Nat.shiftRight_eq_div_pow]; omega)
  rw [h, and_FF_eq, and_FF_eq, Nat.shiftRight_eq_div_pow, Nat.shiftRight_eq_div_pow]
  norm_num

/-- C10. Sentinel collision: for every `x` and `y` in `0..4095` and every pressure
byte `p`, the record `(((x >> 8) << 4) | (y >> 8), x & 0xFF, y & 0xFF, p)` is
decoded by the per-slot step to exactly `(x, y)` when `(x, y)` differs from
`(4095, 4095)` and is skipped as inactive when `(x, y) = (4095, 4095)`; no record
of bytes decodes to `(4095, 4095)`, and a record of bytes that decodes to
`(x, y)` has the geometry bytes of that encoding. -/
theorem sentinel_collision (x y p : Nat) (hx : x ≤ 4095) (hy : y ≤ 4095) :
    decode_slot (spec_encode_record x y p)
        = (if x = 4095 ∧ y = 4095 then none else some ⟨x, y⟩) ∧
      (∀ i, irq_slot_step i (spec_encode_record x y p)
        = (if x = 4095 ∧ y = 4095 then [] else tpd_finger i ⟨x, y⟩)) ∧
      (∀ b0 b1 b2 pr, b0 < 256 → b1 < 256 → b2 < 256 →
        decode_slot ⟨b0, b1, b2, pr⟩ ≠ some ⟨4095, 4095⟩) ∧
      (∀ b0 b1 b2 pr, b0 < 256 → b1 < 256 → b2 < 256 →
        decode_slot ⟨b0, b1, b2, pr⟩ = some ⟨x, y⟩ →
          b0 = (spec_encode_record x y p).xy_hi ∧
          b1 = (spec_encode_record x y p).x_low ∧
          b2 = (spec_encode_record x y p).y_low) := by
  have henc := spec_encode_record_eq x y p hy
  have hdec : decode_slot (spec_encode_record x y p)
      = (if x = 4095 ∧ y = 4095 then none else some ⟨x, y⟩) := by
    rw [henc]
    unfold decode_slot
    by_cases hxy : x = 4095 ∧ y = 4095
    · have hnp : is_non_pressed ⟨x / 256 * 16 + y / 256, x % 256, y % 256, p⟩ = true := by
        rw [is_non_pressed_iff]; simp only; omega
      rw [if_pos hnp, if_pos hxy]
    · have hnp : is_non_pressed ⟨x / 256 * 16 + y / 256, x % 256, y % 256, p⟩ = false := by
        rw [Bool.eq_false_iff, Ne, is_non_pressed_iff]; simp only; omega
      have hc := decode_coord_eq ⟨x / 256 * 16 + y / 256, x % 256, y % 256, p⟩
        (by simp only; omega) (by simp only; omega) (by simp only; omega)
      simp only at hc
      rw [if_neg hxy, hc]
      simp only [hnp, Bool.false_eq_true, if_false, Option.some.injEq, point.mk.injEq]
      omega
  have hraw : ∀ b0 b1 b2 pr u v, b0 < 256 → b1 < 256 → b2 < 256 →
      decode_slot ⟨b0, b1, b2, pr⟩ = some ⟨u, v⟩ →
        ¬ (b0 = 255 ∧ b1 = 255 ∧ b2 = 255) ∧ u = b0 / 16 * 256 + b1 ∧
          v = b0 % 16 * 256 + b2 := by
    intro b0 b1 b2 pr u v h0 h1 h2 hd
    unfold decode_slot at hd
    by_cases hnp : is_non_pressed ⟨b0, b1, b2, pr⟩ = true
    · simp [hnp] at hd
    · have hc := decode_coord_eq ⟨b0, b1, b2, pr⟩ h0 h1 h2
      simp only at hc
      rw [if_neg hnp, hc] at hd
      simp only [Option.some.injEq, point.mk.injEq] at hd
      rw [is_non_pressed_iff] at hnp
      simp only at hnp
      exact ⟨hnp, hd.1.symm, hd.2.symm⟩
  refine ⟨hdec, ?_, ?_, ?_⟩
  · intro i
    unfold irq_slot_step
    rw [hdec]
    by_cases hxy : x = 4095 ∧ y = 4095
    · rw [if_pos hxy, if_pos hxy]
    · rw [if_neg hxy, if_neg hxy]
  · intro b0 b1 b2 pr h0 h1 h2 hd
    obtain ⟨hns, hu, hv⟩ := hraw b0 b1 b2 pr 4095 4095 h0 h1 h2 hd
    omega
  · intro b0 b1 b2 pr h0 h1 h2 hd
    obtain ⟨_, hu, hv⟩ := hraw b0 b1 b2 pr x y h0 h1 h2 hd
    rw [henc]
    simp only
    omega

/-- C10 at a concrete input: the point `(2765, 3055)` with pressure byte `0x10`. -/
theorem sentinel_collision_witness :
    decode_slot (spec_encode_record 2765 3055 0x10)
        = (if 2765 = 4095 ∧ 3055 = 4095 then none else some ⟨2765, 3055⟩) ∧
      (∀ i, irq_slot_step i (spec_encode_record 2765 3055 0x10)
        = (if 2765 = 4095 ∧ 3055 = 4095 then [] else tpd_finger i ⟨2765, 3055⟩)) ∧
      (∀ b0 b1 b2 pr, b0 < 256 → b1 < 256 → b2 < 256 →
        decode_slot ⟨b0, b1, b2, pr⟩ ≠ some ⟨4095, 4095⟩) ∧
      (∀ b0 b1 b2 pr, b0 < 256 → b1 < 256 → b2 < 256 →
        decode_slot ⟨b0, b1, b2, pr⟩ = some ⟨2765, 3055⟩ →
          b0 = (spec_encode_record 2765 3055 0x10).xy_hi ∧
          b1 = (spec_encode_record 2765 3055 0x10).x_low ∧
          b2 = (spec_encode_record 2765 3055 0x10).y_low) :=
  sentinel_collision 2765 3055 0x10 (by decide) (by decide)

/-! ## The interrupt handler -/

/-- The loop body in closed form. -/
theorem irq_slot_step_eq (i : Nat) (p : packet) :
    irq_slot_step i p
      = if p.xy_hi = 0xFF ∧ p.x_low = 0xFF ∧ p.y_low = 0xFF then []
        else tpd_finger i (decode_coord p) := by
  unfold irq_slot_step decode_slot
  by_cases h : is_non_pressed p = true
  · rw [if_pos h, if_pos ((is_non_pressed_iff p).1 h)]
  · rw [if_neg h, if_neg (fun hp => h ((is_non_pressed_iff p).2 hp))]

/-- Every call of the loop body goes to the sink. -/
theorem sink_calls_irq_slot_step (i : Nat) (p : packet) :
    sink_calls (irq_slot_step i p) = irq_slot_step i p := by
  rw [irq_slot_step_eq]
  split <;> rfl

/-- The loop body makes no bus read. -/
theorem read_lengths_irq_slot_step (i : Nat) (p : packet) :
    read_lengths (irq_slot_step i p) = [] := by
  rw [irq_slot_step_eq]
  split <;> rfl

/-- Every call of the loop goes to the sink. -/
theorem sink_calls_irq_loop_from (pkt : Nat → Option packet) (slots : List Nat) :
    sink_calls (irq_loop_from pkt slots).calls = (irq_loop_from pkt slots).calls := by
  induction slots with
  | nil => rfl
  | cons i slots ih =>
    unfold irq_loop_from
    cases pkt i with
    | none => rfl
    | some p =>
      have hp := sink_calls_irq_slot_step i p
      unfold sink_calls at ih hp ⊢
      simp only [List.filter_append, ih, hp]

/-- The loop makes no bus read. -/
theorem read_lengths_irq_loop_from (pkt : Nat → Option packet) (slots : List Nat) :
    read_lengths (irq_loop_from pkt slots).calls = [] := by
  induction slots with
  | nil => rfl
  | cons i slots ih =>
    unfold irq_loop_from
    cases pkt i with
    | none => rfl
    | some p =>
      have hp := read_lengths_irq_slot_step i p
      unfold read_lengths at ih hp ⊢
      simp only [List.filterMap_append, ih, hp, List.append_nil]

/-- The sink calls of the handler: when the transfer, the mode byte and the
handler's checksum comparison all pass, the calls of the loop, followed by the
two synchronisation calls unless the loop faulted; nothing otherwise. -/
theorem sink_calls_tpd_irq_handler (abi : Abi) (data : tpd_compat) (ret : Int)
    (rx : List Nat) (mem : Nat → Option Nat) :
    sink_calls (tpd_irq_handler abi data ret rx mem).calls
      = if ret = 1 ∧ tev_mode rx = data.data_raw ∧
            tpd_checksum rx (sizeof_touch_event abi - 1) = tev_checksum abi rx then
          (irq_loop data.max_fingers (tev_pkt_at abi rx mem)).calls
            ++ (if (irq_loop data.max_fingers (tev_pkt_at abi rx mem)).faulted then []
                else [.input_mt_sync_frame, .input_sync])
        else [] := by
  unfold tpd_irq_handler
  have hl := sink_calls_irq_loop_from (tev_pkt_at abi rx mem) (List.range data.max_fingers)
  by_cases h1 : ret = 1
  · by_cases h2 : tev_mode rx = data.data_raw
    · by_cases h3 : tpd_checksum rx (sizeof_touch_event abi - 1) = tev_checksum abi rx
      · by_cases h4 : (irq_loop data.max_fingers (tev_pkt_at abi rx mem)).faulted = true
        · unfold irq_loop at h4 ⊢
          unfold sink_calls at hl ⊢
          simp [h1, h2, h3, h4, List.filter_append, hl, Call.isSink]
        · unfold irq_loop at h4 ⊢
          unfold sink_calls at hl ⊢
          simp [h1, h2, h3, h4, List.filter_append, hl, Call.isSink]
      · simp [sink_calls, h1, h2, h3, Call.isSink]
    · simp [sink_calls, h1, h2, Call.isSink]
  · simp [sink_calls, h1, Call.isSink]

/-- The bus reads of the handler: one, of `sizeof(struct touch_event)` bytes. -/
theorem read_lengths_tpd_irq_handler (abi : Abi) (data : tpd_compat) (ret : Int)
    (rx : List Nat) (mem : Nat → Option Nat) :
    read_lengths (tpd_irq_handler abi data ret rx mem).calls = [sizeof_touch_event abi] := by
  unfold tpd_irq_handler
  have hl := read_lengths_irq_loop_from (tev_pkt_at abi rx mem) (List.range data.max_fingers)
  by_cases h1 : ret = 1
  · by_cases h2 : tev_mode rx = data.data_raw
    · by_cases h3 : tpd_checksum rx (sizeof_touch_event abi - 1) = tev_checksum abi rx
      · by_cases h4 : (irq_loop data.max_fingers (tev_pkt_at abi rx mem)).faulted = true
        · unfold irq_loop at h4 ⊢
          unfold read_lengths at hl ⊢
          simp [h1, h2, h3, h4, List.filterMap_append, hl]
        · unfold irq_loop at h4 ⊢
          unfold read_lengths at hl ⊢
          simp [h1, h2, h3, h4, List.filterMap_append, hl]
      · simp [read_lengths, h1, h2, h3]
    · simp [read_lengths, h1, h2]
  · simp [read_lengths, h1]

/-- The checksum over a prefix does not read the bytes after it. -/
theorem tpd_checksum_append_left (l r : List Nat) :
    tpd_checksum (l ++ r) l.length = tpd_checksum l l.length := by
  rw [tpd_checksum_eq (l ++ r) l.length (by simp), tpd_checksum_eq l l.length (Nat.le_refl _),
    List.take_left, List.take_length]

/-- The member `tev.checksum` lies in a prefix that covers its offset. -/
theorem tev_checksum_append_left (abi : Abi) (l r : List Nat)
    (h : offsetof_checksum abi < l.length) :
    tev_checksum abi (l ++ r) = tev_checksum abi l := by
  unfold tev_checksum
  exact List.getD_append l r 0 _ h

/-- A little-endian value lies in a prefix that covers its bytes. -/
theorem le_value_append_left (l r : List Nat) (n off : Nat) (h : off + n ≤ l.length) :
    le_value (l ++ r) off n = le_value l off n := by
  induction n generalizing off with
  | zero => rfl
  | succ n ih =>
    unfold le_value
    rw [List.getD_append l r 0 off (by omega), ih (off + 1) (by omega)]

/-- The handler never examines the last byte the transfer stored: every byte it
reads from `tev` (the mode, the summed range, `tev.checksum`, `tev.pkt`) lies
among the first `sizeof(struct touch_event) - 1`. -/
theorem tpd_irq_handler_append_left (abi : Abi) (data : tpd_compat) (ret : Int)
    (l r : List Nat) (mem : Nat → Option Nat) (h : sizeof_touch_event abi - 1 = l.length) :
    tpd_irq_handler abi data ret (l ++ r) mem = tpd_irq_handler abi data ret l mem := by
  have hlen : 11 ≤ l.length := by
    rw [← h]; cases abi <;> decide
  have hoff : offsetof_checksum abi < l.length := by
    rw [← h]; cases abi <;> decide
  have hpo : offsetof_pkt abi + sizeof_pointer abi ≤ l.length := by
    rw [← h]; cases abi <;> decide
  have hmode : tev_mode (l ++ r) = tev_mode l := by
    unfold tev_mode
    exact List.getD_append l r 0 0 (by omega)
  have hck : tpd_checksum (l ++ r) (sizeof_touch_event abi - 1)
      = tpd_checksum l (sizeof_touch_event abi - 1) := by
    rw [h]; exact tpd_checksum_append_left l r
  have hcs := tev_checksum_append_left abi l r hoff
  have hpkt : tev_pkt_at abi (l ++ r) mem = tev_pkt_at abi l mem := by
    funext i
    unfold tev_pkt_at tev_pkt
    rw [le_value_append_left l r _ _ hpo]
  unfold tpd_irq_handler
  simp only [hmode, hck, hcs, hpkt]

/-- The run of the handler on a frame that passes its three tests: the loop,
then the synchronisation calls and `kfree` unless the loop faulted. -/
theorem tpd_irq_handler_accepted (abi : Abi) (data : tpd_compat) (rx : List Nat)
    (mem : Nat → Option Nat) (hm : tev_mode rx = data.data_raw)
    (hc : tpd_checksum rx (sizeof_touch_event abi - 1) = tev_checksum abi rx) :
    tpd_irq_handler abi data 1 rx mem
      = if (irq_loop data.max_fingers (tev_pkt_at abi rx mem)).faulted then
          { calls := [.kmalloc (sizeof_packet * data.max_fingers),
                      .i2c_transfer (sizeof_touch_event abi)]
              ++ (irq_loop data.max_fingers (tev_pkt_at abi rx mem)).calls,
            faulted := true }
        else
          { calls := [.kmalloc (sizeof_packet * data.max_fingers),
                      .i2c_transfer (sizeof_touch_event abi)]
              ++ (irq_loop data.max_fingers (tev_pkt_at abi rx mem)).calls
              ++ [.input_mt_sync_frame, .input_sync, .kfree],
            faulted := false } := by
  unfold tpd_irq_handler
  simp [hm, hc]

/-! ## The handler on frames in the layout of the specification -/

/-- C2 (the code at the failing input). The round-trip frame with slot 0 active
at `(1, 2)`, every other slot inactive, pressure bytes `0x10` and proximity byte
1 is not decoded to slot 0 at `(1, 2)`: read into `struct touch_event` it fails
the checksum comparison and the handler makes no sink call, for the MSG2238 with
32-bit pointers and for the MSG2638 with 64-bit and with 32-bit pointers,
whatever byte follows the frame and whatever the memory holds; for the MSG2238
with 64-bit pointers, zero bytes after the frame and zeroed memory, the handler
reports slots 0 and 1 both at `(0, 0)`. -/
theorem roundtrip_frame_not_decoded (extra : Nat) (mem : Nat → Option Nat) :
    spec_encode_frame msg2238_compat (fun i => if i = 0 then some ⟨1, 2⟩ else none)
        (fun _ => 0x10) 1
      = [0x62, 0x00, 0x01, 0x02, 0x10, 0xFF, 0xFF, 0xFF, 0x10, 0x01, 0x7D] ∧
    sink_calls (tpd_irq_handler .ilp32 msg2238_compat 1
        (spec_encode_frame msg2238_compat (fun i => if i = 0 then some ⟨1, 2⟩ else none)
          (fun _ => 0x10) 1 ++ [extra]) mem).calls = [] ∧
    sink_calls (tpd_irq_handler .lp64 msg2638_compat 1
        (spec_encode_frame msg2638_compat (fun i => if i = 0 then some ⟨1, 2⟩ else none)
          (fun _ => 0x10) 1 ++ [extra]) mem).calls = [] ∧
    sink_calls (tpd_irq_handler .ilp32 msg2638_compat 1
        ((spec_encode_frame msg2638_compat (fun i => if i = 0 then some ⟨1, 2⟩ else none)
          (fun _ => 0x10) 1).take 12) mem).calls = [] ∧
    sink_calls (tpd_irq_handler .lp64 msg2238_compat 1
        (spec_encode_frame msg2238_compat (fun i => if i = 0 then some ⟨1, 2⟩ else none)
          (fun _ => 0x10) 1 ++ List.replicate 13 0) (fun _ => some 0)).calls
      = tpd_finger 0 ⟨0, 0⟩ ++ tpd_finger 1 ⟨0, 0⟩
          ++ [.input_mt_sync_frame, .input_sync] := by
  have hf1 : spec_encode_frame msg2238_compat
      (fun i => if i = 0 then some ⟨1, 2⟩ else none) (fun _ => 0x10) 1
      = [0x62, 0x00, 0x01, 0x02, 0x10, 0xFF, 0xFF, 0xFF, 0x10, 0x01, 0x7D] := by decide
  have hf2 : spec_encode_frame msg2638_compat
      (fun i => if i = 0 then some ⟨1, 2⟩ else none) (fun _ => 0x10) 1
      = [0x5A, 0x00, 0x01, 0x02, 0x10, 0xFF, 0xFF, 0xFF, 0x10, 0xFF, 0xFF, 0xFF, 0x10,
         0xFF, 0xFF, 0xFF, 0x10, 0xFF, 0xFF, 0xFF, 0x10, 0x01, 0x5E] := by decide
  refine ⟨hf1, ?_, ?_, ?_, ?_⟩
  · rw [hf1, sink_calls_tpd_irq_handler, if_neg]
    rintro ⟨_, _, h3⟩
    rw [tev_checksum_append_left _ _ _ (by decide)] at h3
    exact absurd ((tpd_checksum_append_left _ _).symm.trans h3) (by decide)
  · rw [hf2, sink_calls_tpd_irq_handler, if_neg]
    rintro ⟨_, _, h3⟩
    rw [tev_checksum_append_left _ _ _ (by decide)] at h3
    exact absurd ((tpd_checksum_append_left _ _).symm.trans h3) (by decide)
  · rw [hf2, sink_calls_tpd_irq_handler, if_neg]
    rintro ⟨_, _, h3⟩
    exact absurd h3 (by decide)
  · rw [hf1]
    decide

/-- C3 (the code at the failing input). The MSG2238 frame
`62 00 01 02 10 00 00 20 10 01 5A` (slots at `(1, 2)` and `(0, 32)`, proximity
byte 1) with its checksum byte corrupted to `0x59` has the right mode byte and
a checksum over all bytes but the last, `0x5A`, that differs from its last
byte; the handler with 32-bit pointers does not discard it, whatever byte
follows it: for every memory the run faults in the loop or reaches `input_sync`,
and over zeroed memory it reports slots 0 and 1 and synchronises the frame. -/
theorem corrupted_checksum_accepted (extra : Nat) (mem : Nat → Option Nat) :
    spec_encode_frame msg2238_compat (fun i => if i = 0 then some ⟨1, 2⟩ else some ⟨0, 32⟩)
        (fun _ => 0x10) 1
      = [0x62, 0x00, 0x01, 0x02, 0x10, 0x00, 0x00, 0x20, 0x10, 0x01, 0x5A] ∧
    tev_mode [0x62, 0x00, 0x01, 0x02, 0x10, 0x00, 0x00, 0x20, 0x10, 0x01, 0x59]
      = msg2238_compat.data_raw ∧
    tpd_checksum [0x62, 0x00, 0x01, 0x02, 0x10, 0x00, 0x00, 0x20, 0x10, 0x01, 0x59] 10
      = 0x5A ∧
    [0x62, 0x00, 0x01, 0x02, 0x10, 0x00, 0x00, 0x20, 0x10, 0x01, 0x59].getLast? = some 0x59 ∧
    ((tpd_irq_handler .ilp32 msg2238_compat 1
          ([0x62, 0x00, 0x01, 0x02, 0x10, 0x00, 0x00, 0x20, 0x10, 0x01, 0x59] ++ [extra])
          mem).faulted = true ∨
      Call.input_sync ∈ (tpd_irq_handler .ilp32 msg2238_compat 1
          ([0x62, 0x00, 0x01, 0x02, 0x10, 0x00, 0x00, 0x20, 0x10, 0x01, 0x59] ++ [extra])
          mem).calls) ∧
    tpd_irq_handler .ilp32 msg2238_compat 1
        ([0x62, 0x00, 0x01, 0x02, 0x10, 0x00, 0x00, 0x20, 0x10, 0x01, 0x59] ++ [extra])
        (fun _ => some 0)
      = { calls := [.kmalloc 8, .i2c_transfer 12] ++ tpd_finger 0 ⟨0, 0⟩
            ++ tpd_finger 1 ⟨0, 0⟩ ++ [.input_mt_sync_frame, .input_sync, .kfree],
          faulted := false } := by
  refine ⟨by decide, by decide, by decide, by decide, ?_, ?_⟩
  · rw [tpd_irq_handler_append_left _ _ _ _ _ _ (by decide),
      tpd_irq_handler_accepted _ _ _ _ (by decide) (by decide)]
    by_cases h4 : (irq_loop msg2238_compat.max_fingers (tev_pkt_at .ilp32
        [0x62, 0x00, 0x01, 0x02, 0x10, 0x00, 0x00, 0x20, 0x10, 0x01, 0x59] mem)).faulted = true
    · rw [if_pos h4]; exact Or.inl rfl
    · rw [if_neg h4]; exact Or.inr (by simp)
  · rw [tpd_irq_handler_append_left _ _ _ _ _ _ (by decide)]
    decide

/-- C5 (the code at the failing input). The MSG2238 frame
`62 00 01 02 10 00 00 20 10 00 5B` (mode byte `data_raw`, slot 0 at `(1, 2)`,
slot 1 at `(0, 32)`, pressure bytes `0x10`, proximity byte 0, correct checksum)
passes the handler's mode and checksum tests with 32-bit pointers, and the
reports do not follow its records: over zeroed memory both slots are reported at
`(0, 0)`; over memory filled with `0xFF` no slot is reported although no record
of the frame is the sentinel; over unmapped memory the run faults with no
report and no synchronisation; and the same slots with pressure byte `0x14` in
slot 0 yield other reported slots over the same memory, the pressure byte of
slot 0 being the low byte of `tev.pkt`. -/
theorem reports_follow_memory_not_frame (extra : Nat) :
    spec_encode_frame msg2238_compat (fun i => if i = 0 then some ⟨1, 2⟩ else some ⟨0, 32⟩)
        (fun _ => 0x10) 0
      = [0x62, 0x00, 0x01, 0x02, 0x10, 0x00, 0x00, 0x20, 0x10, 0x00, 0x5B] ∧
    spec_encode_frame msg2238_compat (fun i => if i = 0 then some ⟨1, 2⟩ else some ⟨0, 32⟩)
        (fun i => if i = 0 then 0x14 else 0x10) 0
      = [0x62, 0x00, 0x01, 0x02, 0x14, 0x00, 0x00, 0x20, 0x10, 0x00, 0x57] ∧
    tpd_irq_handler .ilp32 msg2238_compat 1
        ([0x62, 0x00, 0x01, 0x02, 0x10, 0x00, 0x00, 0x20, 0x10, 0x00, 0x5B] ++ [extra])
        (fun _ => some 0)
      = { calls := [.kmalloc 8, .i2c_transfer 12] ++ tpd_finger 0 ⟨0, 0⟩
            ++ tpd_finger 1 ⟨0, 0⟩ ++ [.input_mt_sync_frame, .input_sync, .kfree],
          faulted := false } ∧
    tpd_irq_handler .ilp32 msg2238_compat 1
        ([0x62, 0x00, 0x01, 0x02, 0x10, 0x00, 0x00, 0x20, 0x10, 0x00, 0x5B] ++ [extra])
        (fun _ => some 0xFF)
      = { calls := [.kmalloc 8, .i2c_transfer 12, .input_mt_sync_frame, .input_sync, .kfree],
          faulted := false } ∧
    tpd_irq_handler .ilp32 msg2238_compat 1
        ([0x62, 0x00, 0x01, 0x02, 0x10, 0x00, 0x00, 0x20, 0x10, 0x00, 0x5B] ++ [extra])
        (fun _ => none)
      = { calls := [.kmalloc 8, .i2c_transfer 12], faulted := true } ∧
    tev_pkt .ilp32 ([0x62, 0x00, 0x01, 0x02, 0x10, 0x00, 0x00, 0x20, 0x10, 0x00, 0x5B]
        ++ [extra]) = 0x20000010 ∧
    reported_slots (tpd_irq_handler .ilp32 msg2238_compat 1
        ([0x62, 0x00, 0x01, 0x02, 0x10, 0x00, 0x00, 0x20, 0x10, 0x00, 0x5B] ++ [extra])
        (fun a => if a < 0x20000014 then some 0 else some 0xFF)).calls = [0] ∧
    reported_slots (tpd_irq_handler .ilp32 msg2238_compat 1
        ([0x62, 0x00, 0x01, 0x02, 0x14, 0x00, 0x00, 0x20, 0x10, 0x00, 0x57] ++ [extra])
        (fun a => if a < 0x20000014 then some 0 else some 0xFF)).calls = [] := by
  refine ⟨by decide, by decide, ?_, ?_, ?_, ?_, ?_, ?_⟩
  · rw [tpd_irq_handler_append_left _ _ _ _ _ _ (by decide)]
    decide
  · rw [tpd_irq_handler_append_left _ _ _ _ _ _ (by decide)]
    decide
  · rw [tpd_irq_handler_append_left _ _ _ _ _ _ (by decide)]
    decide
  · unfold tev_pkt
    rw [le_value_append_left _ _ _ _ (by decide)]
    decide
  · rw [tpd_irq_handler_append_left _ _ _ _ _ _ (by decide)]
    decide
  · rw [tpd_irq_handler_append_left _ _ _ _ _ _ (by decide)]
    decide

/-- C8 (the code at the failing input). For every profile and both pointer
widths the handler issues one bus read, of `sizeof(struct touch_event)` bytes:
12 with 32-bit pointers and 24 with 64-bit pointers, whatever `max_fingers` is,
so never the 11 bytes of an MSG2238 frame nor the 23 bytes of an MSG2638 frame;
the byte compared with the checksum, `tev.checksum`, is not the last byte read;
and the records are read through `tev.pkt` from memory, so the same bytes on
the bus yield different reports over different memory. -/
theorem irq_read_length_fixed (abi : Abi) (data : tpd_compat) (ret : Int)
    (rx : List Nat) (mem : Nat → Option Nat) :
    read_lengths (tpd_irq_handler abi data ret rx mem).calls = [sizeof_touch_event abi] ∧
      (sizeof_touch_event .ilp32 = 12 ∧ sizeof_touch_event .lp64 = 24) ∧
      (1 + 4 * msg2238_compat.max_fingers + 2 = 11 ∧
        1 + 4 * msg2638_compat.max_fingers + 2 = 23) ∧
      sizeof_touch_event abi ≠ 1 + 4 * msg2238_compat.max_fingers + 2 ∧
      sizeof_touch_event abi ≠ 1 + 4 * msg2638_compat.max_fingers + 2 ∧
      offsetof_checksum abi ≠ sizeof_touch_event abi - 1 ∧
      reported_slots (tpd_irq_handler .ilp32 msg2238_compat 1
          [0x62, 0x00, 0x01, 0x02, 0x10, 0x00, 0x00, 0x20, 0x10, 0x00, 0x5B, 0x00]
          (fun _ => some 0)).calls = [0, 1] ∧
      reported_slots (tpd_irq_handler .ilp32 msg2238_compat 1
          [0x62, 0x00, 0x01, 0x02, 0x10, 0x00, 0x00, 0x20, 0x10, 0x00, 0x5B, 0x00]
          (fun _ => some 0xFF)).calls = [] := by
  refine ⟨read_lengths_tpd_irq_handler abi data ret rx mem, by decide, by decide,
    ?_, ?_, ?_, by decide, by decide⟩
  · cases abi <;> decide
  · cases abi <;> decide
  · cases abi <;> decide

/-! ## Power sequencing and error propagation -/

/-- The calls of `tpd_start` against the recorder, whatever `regulator_bulk_enable`
returns. -/
theorem tpd_start_recorder (e d : Int) (data : tpd_compat) (t : List Call) :
    tpd_start (recorder e d) data t =
      if e ≠ 0 then
        (e, t ++ [.regulator_bulk_enable, .dev_err (.failed_enable_regulators e)])
      else
        (0, t ++ [.regulator_bulk_enable, .msleep data.chip_on,
                  .gpiod_set_value_cansleep 1,
                  .usleep_range data.reset_min data.reset_max,
                  .gpiod_set_value_cansleep 0, .msleep data.firmware_on,
                  .enable_irq]) := by
  by_cases he : e = 0 <;> simp [tpd_start, recorder, he]

/-- The calls of `tpd_stop` against the recorder, whatever `regulator_bulk_disable`
returns. -/
theorem tpd_stop_recorder (e d : Int) (t : List Call) :
    tpd_stop (recorder e d) t =
      if d ≠ 0 then
        (d, t ++ [.disable_irq, .regulator_bulk_disable,
                  .dev_err (.failed_disable_regulators d)])
      else
        (0, t ++ [.disable_irq, .regulator_bulk_disable]) := by
  by_cases hd : d = 0 <;> simp [tpd_stop, recorder, hd]

/-- C6. Power sequencing order on the recorded trace: when enabling the supplies
succeeds, `tpd_start` makes exactly the calls enable supplies, `msleep(chip_on)`,
reset line to 1, `usleep_range(reset_min, reset_max)`, reset line to 0,
`msleep(firmware_on)`, `enable_irq`, in this order, so `enable_irq` is the last
call; for `msg2238_compat` the requested pulse is `usleep_range(10000, 11000)`.
Every run of `tpd_stop` starts with `disable_irq`, then `regulator_bulk_disable`,
and contains no `enable_irq`, whatever the disabling of the supplies returns. -/
theorem power_sequencing_order (data : tpd_compat) (e d : Int) :
    tpd_start (recorder 0 d) data [] =
        (0, [.regulator_bulk_enable, .msleep data.chip_on,
             .gpiod_set_value_cansleep 1,
             .usleep_range data.reset_min data.reset_max,
             .gpiod_set_value_cansleep 0, .msleep data.firmware_on,
             .enable_irq]) ∧
      (tpd_start (recorder 0 d) data []).2.getLast? = some .enable_irq ∧
      (tpd_start (recorder 0 d) msg2238_compat []).2.get? 3
        = some (.usleep_range 10000 11000) ∧
      (10000 ≤ msg2238_compat.reset_min ∧ msg2238_compat.reset_max ≤ 11000 ∧
        msg2238_compat.reset_min ≤ msg2238_compat.reset_max) ∧
      (tpd_stop (recorder e d) []).2.take 2 = [.disable_irq, .regulator_bulk_disable] ∧
      (tpd_stop (recorder e d) []).2.drop 2
        = (if d ≠ 0 then [.dev_err (.failed_disable_regulators d)] else []) ∧
      Call.enable_irq ∉ (tpd_stop (recorder e d) []).2 := by
  refine ⟨?_, ?_, ?_, ?_, ?_, ?_, ?_⟩
  · simp [tpd_start_recorder]
  · simp [tpd_start_recorder]
  · simp [tpd_start_recorder, msg2238_compat]
  · simp [msg2238_compat]
  · by_cases hd : d = 0 <;> simp [tpd_stop_recorder, hd]
  · by_cases hd : d = 0 <;> simp [tpd_stop_recorder, hd]
  · by_cases hd : d = 0 <;> simp [tpd_stop_recorder, hd]

/-- C7. Error propagation: over any collaborators, `tpd_input_open` returns what
`tpd_start` returns and `tpd_resume` returns what the `tpd_start` it runs under
the mutex returns; `tpd_start` returns the value of `regulator_bulk_enable`, so
it is non-zero exactly when enabling the supplies fails; on the recorded trace a
failed enable is followed by the log call only (no reset-line change, no delay,
no `enable_irq`); `tpd_suspend` returns 0 and `tpd_input_close` returns nothing,
whatever `tpd_stop` returns. -/
theorem error_propagation {σ : Type} (h : Handles σ) (data : tpd_compat) (s : σ)
    (e d : Int) (t : List Call) :
    tpd_input_open h data s = tpd_start h data s ∧
      (tpd_resume h data s).1 = (tpd_start h data (h.mutex_lock s)).1 ∧
      (tpd_start h data s).1 = (h.regulator_bulk_enable s).1 ∧
      ((tpd_start h data s).1 ≠ 0 ↔ (h.regulator_bulk_enable s).1 ≠ 0) ∧
      (tpd_start (recorder e d) data t).2 =
        (if e ≠ 0 then
          t ++ [.regulator_bulk_enable, .dev_err (.failed_enable_regulators e)]
        else
          t ++ [.regulator_bulk_enable, .msleep data.chip_on,
                .gpiod_set_value_cansleep 1,
                .usleep_range data.reset_min data.reset_max,
                .gpiod_set_value_cansleep 0, .msleep data.firmware_on,
                .enable_irq]) ∧
      (tpd_resume (recorder e d) data t).1 = e ∧
      (tpd_input_open (recorder e d) data t).1 = e ∧
      (tpd_suspend h s).1 = 0 ∧
      (tpd_suspend (recorder e d) t).1 = 0 ∧
      (tpd_stop (recorder e d) t).1 = d ∧
      (tpd_input_close h s).1 = () ∧
      (tpd_input_close (recorder e d) t).2 = (tpd_stop (recorder e d) t).2 := by
  have hstart : (tpd_start h data s).1 = (h.regulator_bulk_enable s).1 := by
    unfold tpd_start
    by_cases hr : (h.regulator_bulk_enable s).1 = 0 <;> simp [hr]
  have hrec : ∀ u, (tpd_start (recorder e d) data u).1 = e := by
    intro u
    by_cases he : e = 0 <;> simp [tpd_start_recorder, he]
  refine ⟨rfl, rfl, hstart, by rw [hstart], ?_, ?_, ?_, rfl, rfl, ?_, rfl, rfl⟩
  · by_cases he : e = 0 <;> simp [tpd_start_recorder, he]
  · exact hrec _
  · exact hrec _
  · by_cases hd : d = 0 <;> simp [tpd_stop_recorder, hd]

/-- C9 (the code at the failing input). On the reference counts of the
interrupt and regulator layers, `tpd_stop` on a device that was never started
deepens the interrupt's disable depth from 1 to 2 and returns `-EIO` from the
unbalanced disable of the supplies; `tpd_suspend` of a never-opened device
changes the state likewise; stop after stop differs from a single stop in state
and in result; and on the recorded trace every `tpd_stop` issues `disable_irq`
and `regulator_bulk_disable` again. -/
theorem tpd_stop_repeats_disable (data : tpd_compat) (e d : Int) (t : List Call) :
    tpd_stop kernel probed
        = (EIO_neg, { irq_depth := 2, supply_count := 0, reset_line := 0 }) ∧
      tpd_suspend kernel probed
        = (0, { irq_depth := 2, supply_count := 0, reset_line := 0 }) ∧
      (tpd_suspend kernel probed).2 ≠ probed ∧
      (tpd_start kernel data probed).2
        = { irq_depth := 0, supply_count := 1, reset_line := 0 } ∧
      tpd_stop kernel (tpd_start kernel data probed).2 = (0, probed) ∧
      tpd_stop kernel (tpd_stop kernel (tpd_start kernel data probed).2).2
        = (EIO_neg, { irq_depth := 2, supply_count := 0, reset_line := 0 }) ∧
      (tpd_input_close kernel (tpd_input_close kernel
          (tpd_start kernel data probed).2).2).2
        ≠ (tpd_input_close kernel (tpd_start kernel data probed).2).2 ∧
      (tpd_stop (recorder e d) (tpd_stop (recorder e d) t).2).2.count .disable_irq
        = t.count .disable_irq + 2 ∧
      (tpd_stop (recorder e d) (tpd_stop (recorder e d) t).2).2.count
          .regulator_bulk_disable
        = t.count .regulator_bulk_disable + 2 := by
  have hs : (tpd_start kernel data probed).2
      = { irq_depth := 0, supply_count := 1, reset_line := 0 } := by
    simp [tpd_start, kernel, probed]
  refine ⟨by decide, by decide, by decide, hs, ?_, ?_, ?_, ?_, ?_⟩
  · rw [hs]; decide
  · rw [hs]; decide
  · rw [tpd_input_close, tpd_input_close, hs]; decide
  · by_cases hd : d = 0 <;> simp [tpd_stop_recorder, hd, List.count_append]
  · by_cases hd : d = 0 <;> simp [tpd_stop_recorder, hd, List.count_append]

end MStar
